import Mathlib

/-
  Verification development for the download engine in
  src/RTL/src-tauri/src/module/download/dwl_main.rs.

  Shallow embedding conventions:
  * Bytes are `Nat` values below 256; 32-bit words are `Nat` values reduced
    modulo 2^32 (`M32`) wherever the Rust code would overflow.
  * One network transfer attempt (`download_with_progress`, lines 454-482) is
    summarized by an `AttemptOutcome`: the attempt either fails before the
    destination file is created (the HTTP GET itself errors, line 460), fails
    after the file was created and some bytes were streamed (lines 464-474),
    or completes and reports the declared content length (`unwrap_or(0)`,
    line 461) together with the number of bytes written.  A run of attempts is
    an oracle `Nat → AttemptOutcome` giving the outcome of each attempt.
  * The existence of the destination file is threaded explicitly as a `Bool`;
    filesystem primitives (`remove_file`, `read`) are idealized as reliable,
    matching the intended semantics of lines 499, 549 and 556 (the file that
    is read was just written, the file that is removed exists).
  * `tokio::time::sleep` only delays and is dropped from the model.
-/

def M32 : Nat := 4294967296

/-- Left-rotation of a 32-bit word, as used by the SHA-1 compression in the
`sha1` crate invoked at lines 550-552. -/
def rotl32 (k x : Nat) : Nat := ((x <<< k) % M32) ||| (x >>> (32 - k))

/-- SHA-1 padding: append 0x80, zero bytes up to 56 mod 64, then the 64-bit
big-endian bit length. -/
def sha1_pad (msg : List Nat) : List Nat :=
  let len := msg.length
  let zeros := (119 - len % 64) % 64
  let bitLen := len * 8
  msg ++ 128 :: List.replicate zeros 0 ++
    [(bitLen >>> 56) % 256, (bitLen >>> 48) % 256, (bitLen >>> 40) % 256,
     (bitLen >>> 32) % 256, (bitLen >>> 24) % 256, (bitLen >>> 16) % 256,
     (bitLen >>> 8) % 256, bitLen % 256]

/-- Group a byte list into big-endian 32-bit words. -/
def bytes_to_words : List Nat → List Nat
  | b0 :: b1 :: b2 :: b3 :: rest =>
    (((b0 * 256 + b1) * 256 + b2) * 256 + b3) :: bytes_to_words rest
  | _ => []

/-- Extend a 16-word block by `n` further schedule words
(w[i] = rotl1 (w[i-3] xor w[i-8] xor w[i-14] xor w[i-16])). -/
def sha1_extend : Nat → Array Nat → Array Nat
  | 0, w => w
  | n + 1, w =>
    let i := w.size
    let x := rotl32 1 ((((w.getD (i - 3) 0) ^^^ (w.getD (i - 8) 0)) ^^^
      (w.getD (i - 14) 0)) ^^^ (w.getD (i - 16) 0))
    sha1_extend n (w.push x)

/-- One SHA-1 round at index `i` on state (a,b,c,d,e) with schedule word `wi`. -/
def sha1_round (i : Nat) (st : Nat × Nat × Nat × Nat × Nat) (wi : Nat) :
    Nat × Nat × Nat × Nat × Nat :=
  let (a, b, c, d, e) := st
  let f :=
    if i < 20 then (b &&& c) ||| ((b ^^^ 4294967295) &&& d)
    else if i < 40 then (b ^^^ c) ^^^ d
    else if i < 60 then ((b &&& c) ||| (b &&& d)) ||| (c &&& d)
    else (b ^^^ c) ^^^ d
  let k :=
    if i < 20 then 1518500249
    else if i < 40 then 1859775393
    else if i < 60 then 2400959708
    else 3395469782
  let temp := (rotl32 5 a + f + e + k + wi) % M32
  (temp, a, rotl32 30 b, c, d)

/-- Run `n` SHA-1 rounds starting at round index `i`. -/
def sha1_rounds : Nat → Nat → (Nat × Nat × Nat × Nat × Nat) → Array Nat →
    Nat × Nat × Nat × Nat × Nat
  | 0, _, st, _ => st
  | n + 1, i, st, w => sha1_rounds n (i + 1) (sha1_round i st (w.getD i 0)) w

/-- SHA-1 compression of one 16-word block into the chaining state. -/
def sha1_compress (st : Nat × Nat × Nat × Nat × Nat) (block : List Nat) :
    Nat × Nat × Nat × Nat × Nat :=
  let w := sha1_extend 64 (List.toArray block)
  let r := sha1_rounds 80 0 st w
  ((st.1 + r.1) % M32, (st.2.1 + r.2.1) % M32, (st.2.2.1 + r.2.2.1) % M32,
   (st.2.2.2.1 + r.2.2.2.1) % M32, (st.2.2.2.2 + r.2.2.2.2) % M32)

/-- Fold the compression over a padded message, 16 words at a time. -/
def sha1_blocks : (Nat × Nat × Nat × Nat × Nat) → List Nat →
    Nat × Nat × Nat × Nat × Nat
  | st, w0 :: w1 :: w2 :: w3 :: w4 :: w5 :: w6 :: w7 :: w8 :: w9 :: w10 ::
      w11 :: w12 :: w13 :: w14 :: w15 :: rest =>
    sha1_blocks (sha1_compress st
      [w0, w1, w2, w3, w4, w5, w6, w7, w8, w9, w10, w11, w12, w13, w14, w15]) rest
  | st, _ => st

/-- Lower-case hexadecimal digit, as produced by Rust's `{:x}` formatting. -/
def hex_digit (n : Nat) : Char :=
  if n < 10 then Char.ofNat (48 + n) else Char.ofNat (87 + n)

/-- Eight lower-case hex digits of one 32-bit word, most significant first. -/
def word_to_hex (w : Nat) : List Char :=
  [hex_digit ((w >>> 28) % 16), hex_digit ((w >>> 24) % 16),
   hex_digit ((w >>> 20) % 16), hex_digit ((w >>> 16) % 16),
   hex_digit ((w >>> 12) % 16), hex_digit ((w >>> 8) % 16),
   hex_digit ((w >>> 4) % 16), hex_digit (w % 16)]

/-- `format!("{:x}", sha1::Sha1::digest(content))` (lines 550-552): the
lower-case hex SHA-1 digest of the file content. -/
def sha1Hex (content : List Nat) : String :=
  let st := sha1_blocks (1732584193, 4023233417, 2562383102, 271733878, 3285377520)
    (bytes_to_words (sha1_pad content))
  String.mk (word_to_hex st.1 ++ word_to_hex st.2.1 ++ word_to_hex st.2.2.1 ++
    word_to_hex st.2.2.2.1 ++ word_to_hex st.2.2.2.2)

/-
  Progress tracker (struct `DownloadProgress`, lines 33-62).  The Rust struct
  holds four `Arc<AtomicUsize>` counters; mutation is only ever a SeqCst
  `fetch_add(1)`, so a run of the tracker is modelled as a value threaded
  through the (sequentialized) increments.
-/

structure DownloadProgress where
  total : Nat
  current : Nat
  success : Nat
  failed : Nat
deriving DecidableEq, Repr

/-- `DownloadProgress::new(total)` (lines 42-49). -/
def DownloadProgress.new (total : Nat) : DownloadProgress :=
  { total := total, current := 0, success := 0, failed := 0 }

/-- `update_success` (lines 51-53): `success.fetch_add(1, SeqCst)`. -/
def DownloadProgress.update_success (p : DownloadProgress) : DownloadProgress :=
  { p with success := p.success + 1 }

/-- `update_failed` (lines 55-57): `failed.fetch_add(1, SeqCst)`. -/
def DownloadProgress.update_failed (p : DownloadProgress) : DownloadProgress :=
  { p with failed := p.failed + 1 }

/-- `get_current` (lines 59-61): `success.load(SeqCst) + failed.load(SeqCst)`. -/
def DownloadProgress.get_current (p : DownloadProgress) : Nat :=
  p.success + p.failed

/-- One call of `update_success` or `update_failed` by some worker; a list of
these is an interleaving of tracker updates (each atomic increment is
indivisible, so every concurrent history is equivalent to some list). -/
inductive ProgressOp
  | success
  | failed
deriving DecidableEq, Repr

def apply_op (p : DownloadProgress) : ProgressOp → DownloadProgress
  | ProgressOp.success => p.update_success
  | ProgressOp.failed => p.update_failed

def apply_ops (p : DownloadProgress) (ops : List ProgressOp) : DownloadProgress :=
  ops.foldl apply_op p

/-
  One transfer attempt (`download_with_progress`, lines 454-482).
-/

/-- Outcome of one attempt of `download_with_progress`:
* `errBeforeCreate` — `client.get(&url).send().await?` fails (line 460);
  the destination file is not touched.
* `errMidWrite` — the file was created (line 464) but a later chunk read or
  write failed (lines 468-474); a partially written file is left at `path`.
* `ok size downloaded` — the body streamed completely; `size` is
  `response.content_length().unwrap_or(0)` (line 461) and `downloaded` the
  number of bytes written (line 471). -/
inductive AttemptOutcome
  | errBeforeCreate
  | errMidWrite
  | ok (size : Nat) (downloaded : Nat)
deriving DecidableEq, Repr

/-- Does this attempt outcome trip the size check of line 498
(`info.size > 0 && downloaded != size`)? -/
def sizeMismatch : AttemptOutcome → Bool
  | AttemptOutcome.ok s d => decide (0 < s ∧ d ≠ s)
  | _ => false

/-
  `download_file_with_retry` (lines 485-515).  `attempt i` is the outcome of
  the i-th invocation of `download_with_progress` in this call; `fileExists`
  is whether a file is present at `path` when the call starts.  The function
  returns the result (`some (size, downloaded)` for `Ok(info)`, `none` for
  `Err`) paired with whether a file is present at `path` on return.  Note
  that the Rust `progress` parameter is never read by this function or by
  `download_with_progress`, so it is omitted.  On a size mismatch the file is
  removed (line 499) and the attempt retried; on a transfer error (lines
  506-510) the loop retries WITHOUT removing anything.
-/
def download_file_with_retry (attempt : Nat → AttemptOutcome) (max_retries : Nat)
    (fileExists : Bool) : Option (Nat × Nat) × Bool :=
  match max_retries with
  | 0 => (none, fileExists)
  | n + 1 =>
    match attempt 0 with
    | AttemptOutcome.errBeforeCreate =>
      download_file_with_retry (fun i => attempt (i + 1)) n fileExists
    | AttemptOutcome.errMidWrite =>
      download_file_with_retry (fun i => attempt (i + 1)) n true
    | AttemptOutcome.ok size downloaded =>
      if 0 < size ∧ downloaded ≠ size then
        download_file_with_retry (fun i => attempt (i + 1)) n false
      else
        (some (size, downloaded), true)

/-
  `download_and_verify_file` (lines 538-572).  `content` is the byte content
  of the file at `path` after a successful transfer.  The returned triple is
  (result, file-exists-at-path, progress tracker after the call).
-/
def download_and_verify_file (attempt : Nat → AttemptOutcome) (content : List Nat)
    (expected_hash : String) (progress : Option DownloadProgress)
    (max_retries : Nat) (fileExists : Bool) :
    Option (Nat × Nat) × Bool × Option DownloadProgress :=
  match download_file_with_retry attempt max_retries fileExists with
  | (none, fs) => (none, fs, progress)
  | (some info, _) =>
    let actual_hash := sha1Hex content
    if actual_hash ≠ expected_hash then
      (none, false, progress.map DownloadProgress.update_failed)
    else
      (some info, true, progress.map DownloadProgress.update_success)

/-
  Asset task preparation (lines 201-219).  Each manifest object contributes
  `value.get("hash").and_then(|h| h.as_str())` — `none` when the field is
  missing or not a string (such objects are skipped by `filter_map`).  For a
  present hash the code slices `&hash[..2]` unguarded; on a hash shorter than
  two bytes this is an out-of-bounds byte slice and the Rust code panics,
  modelled by the whole preparation returning `none`.  (Rust slices bytes;
  for the ASCII hashes the claims quantify over, byte count and character
  count coincide, so `String.length` is used.)
-/

structure AssetObject where
  hash : Option String
deriving DecidableEq, Repr

def prepare_asset_download_tasks : List AssetObject →
    Option (List (String × String × String))
  | [] => some []
  | obj :: rest =>
    match obj.hash with
    | none => prepare_asset_download_tasks rest
    | some h =>
      if 2 ≤ h.length then
        let pre := h.take 2
        let url := "https://resources.download.minecraft.net/" ++ pre ++ "/" ++ h
        let path := ".minecraft/assets/objects/" ++ pre ++ "/" ++ h
        (prepare_asset_download_tasks rest).map (fun ts => (url, path, h) :: ts)
      else
        none

/-
  `Download::new` (lines 101-110): the constructor takes a URL argument but
  stores the fixed Mojang manifest URL in every field position.
-/

structure Download where
  version_manifest_url : String
  id : String
  version_type : String
deriving DecidableEq, Repr

def Download.new (version_manifest_url : String) : Download :=
  { version_manifest_url :=
      "https://piston-meta.mojang.com/mc/game/version_manifest.json",
    id := "", version_type := "" }

/-
  Orchestrator (`DownloadOptions::dwl_version_manifest`, lines 129-450).
  Each artifact of the manifest is summarized by the data its verification
  depends on: the first-pass attempt oracle, the retry-pass attempt oracle
  (used only by asset objects, lines 281-291), the bytes that end up on disk
  after a completed transfer, and the expected hash from the manifest.
-/

structure AssetTask where
  attempt1 : Nat → AttemptOutcome
  attempt2 : Nat → AttemptOutcome
  content : List Nat
  hash : String

/-- The second-chance pass over the asset phase's failure list (lines
277-292): for each recorded failure run `download_file_with_retry` — not
`download_and_verify_file` — with budget 5 and progress `None`, then bump the
asset tracker's failed/success counter by the outcome.  (The result value of
`download_file_with_retry` does not depend on the initial file-exists flag,
so it is passed as `false`.) -/
def retry_pass (failures : List AssetTask) (p : DownloadProgress) : DownloadProgress :=
  failures.foldl (fun p t =>
    if ((download_file_with_retry t.attempt2 5 false).1).isSome then
      p.update_success
    else
      p.update_failed) p

/-- The asset future (lines 182-317): first pass runs
`download_and_verify_file` with budget 3 on every task, pushing failures onto
`failed_downloads` (line 254); then the retry pass runs; then the future
returns `Err("部分资源文件下载失败")` iff the tracker's final failed count is
positive (lines 301-303).  The concurrent `buffer_unordered` execution only
interleaves atomic counter increments and lock-guarded pushes, so it is
modelled by a fold. -/
def asset_phase (tasks : List AssetTask) : Except String Unit × DownloadProgress :=
  let p0 := DownloadProgress.new tasks.length
  let first := tasks.foldl
    (fun (acc : DownloadProgress × List AssetTask) t =>
      match download_and_verify_file t.attempt1 t.content t.hash (some acc.1) 3 false with
      | (some _, _, po) => (po.getD acc.1, acc.2)
      | (none, _, po) => (po.getD acc.1, acc.2 ++ [t])) (p0, [])
  let p2 := retry_pass first.2 first.1
  (if 0 < p2.failed then Except.error "部分资源文件下载失败" else Except.ok (), p2)

/-- The library future (lines 319-396): run `download_and_verify_file` with
budget 3 on every library artifact, counting successes and failures; the pair
of counts is returned to the orchestrator (line 395/403).  There is no
failure list and no retry pass in this phase. -/
def library_phase (tasks : List AssetTask) : (Nat × Nat) × DownloadProgress :=
  tasks.foldl
    (fun (acc : (Nat × Nat) × DownloadProgress) t =>
      match download_and_verify_file t.attempt1 t.content t.hash (some acc.2) 3 false with
      | (some _, _, po) => ((acc.1.1 + 1, acc.1.2), po.getD acc.2)
      | (none, _, po) => ((acc.1.1, acc.1.2 + 1), po.getD acc.2))
    ((0, 0), DownloadProgress.new tasks.length)

/-- The artifacts one parsed version manifest gives rise to: the optional
`downloads.client` entry (lines 154-179), the optional `assetIndex` object
list (lines 186-314), the `libraries` artifact list (lines 324-393), and the
optional `downloads.client_mappings` entry, whose `download_file` call
performs no verification and either succeeds or fails (lines 409-430). -/
structure ManifestInput where
  client : Option AssetTask
  asset_objects : Option (List AssetTask)
  libraries : List AssetTask
  client_mappings : Option Bool

/-- `DownloadOptions::dwl_version_manifest` (lines 129-450), from the point
where the manifest JSON has been parsed.  The client jar failure increments
the outer `failed_count` (line 176); the asset future's error is propagated
by `?` at line 402; the library future's `(success, failed)` counts are
destructured at line 403 and never consulted; a mapping failure increments
the outer `failed_count` (line 427); the call errors iff the outer
`failed_count` is positive (lines 445-449). -/
def DownloadOptions.dwl_version_manifest (inp : ManifestInput) : Except String Unit :=
  let jar_failed : Nat :=
    match inp.client with
    | none => 0
    | some t =>
      if ((download_and_verify_file t.attempt1 t.content t.hash none 3 false).1).isSome
      then 0 else 1
  let assets_result : Except String Unit :=
    match inp.asset_objects with
    | none => Except.ok ()
    | some ts => (asset_phase ts).1
  let _ := library_phase inp.libraries
  match assets_result with
  | Except.error e => Except.error e
  | Except.ok _ =>
    let mapping_failed : Nat :=
      match inp.client_mappings with
      | none => 0
      | some true => 0
      | some false => 1
    if 0 < jar_failed + mapping_failed then Except.error "部分文件下载失败"
    else Except.ok ()

set_option maxRecDepth 100000

/-- Any `Ok` result of `download_file_with_retry` passed the size check of
line 498 on its returning attempt. -/
theorem retry_size_sound : ∀ (n : Nat) (attempt : Nat → AttemptOutcome)
    (fs fsOut : Bool) (s d : Nat),
    download_file_with_retry attempt n fs = (some (s, d), fsOut) →
    s = 0 ∨ d = s := by
  intro n
  induction n with
  | zero =>
    intro attempt fs fsOut s d h
    simp [download_file_with_retry] at h
  | succ m ih =>
    intro attempt fs fsOut s d h
    unfold download_file_with_retry at h
    split at h
    · exact ih _ _ _ _ _ h
    · exact ih _ _ _ _ _ h
    · rename_i size downloaded hA
      split at h
      · exact ih _ _ _ _ _ h
      · rename_i hc
        rw [Prod.mk.injEq, Option.some.injEq, Prod.mk.injEq] at h
        obtain ⟨⟨hs, hd⟩, _⟩ := h
        push_neg at hc
        rcases Nat.eq_zero_or_pos size with hz | hp
        · left; omega
        · right; have := hc hp; omega

/-- A run whose every in-budget attempt trips the size check ends in an error
with the file removed (the size-mismatch branch deletes, line 499). -/
theorem mismatch_run : ∀ (n : Nat) (attempt : Nat → AttemptOutcome) (fs : Bool),
    (∀ i, i < n → sizeMismatch (attempt i) = true) →
    download_file_with_retry attempt n fs = (none, if n = 0 then fs else false) := by
  intro n
  induction n with
  | zero => intro attempt fs _; simp [download_file_with_retry]
  | succ m ih =>
    intro attempt fs h
    have h0 := h 0 (Nat.succ_pos m)
    unfold download_file_with_retry
    split
    · rename_i hA; rw [hA] at h0; simp [sizeMismatch] at h0
    · rename_i hA; rw [hA] at h0; simp [sizeMismatch] at h0
    · rename_i s d hA
      rw [hA] at h0
      have hc : 0 < s ∧ d ≠ s := by simpa [sizeMismatch] using h0
      rw [if_pos hc]
      rw [ih (fun i => attempt (i + 1)) false
        (fun i hi => h (i + 1) (Nat.succ_lt_succ hi))]
      cases m <;> simp

/-- Claim C6: `download_file_with_retry` returns success only if, on the
returning attempt, the declared content length is 0 (length unknown) or the
bytes written equal the declared length; a transfer with a positive declared
length different from the bytes written is never returned as success. -/
theorem C6_success_requires_size_match (attempt : Nat → AttemptOutcome)
    (n : Nat) (fs fsOut : Bool) (s d : Nat)
    (h : download_file_with_retry attempt n fs = (some (s, d), fsOut)) :
    s = 0 ∨ d = s :=
  retry_size_sound n attempt fs fsOut s d h

theorem C6_success_requires_size_match_witness :
    download_file_with_retry (fun _ => AttemptOutcome.ok 7 7) 3 false =
      (some (7, 7), true) ∧ ((7 : Nat) = 0 ∨ (7 : Nat) = 7) :=
  ⟨by decide, C6_success_requires_size_match (fun _ => AttemptOutcome.ok 7 7)
    3 false true 7 7 (by decide)⟩

/-- Claim C7: `get_current` returns exactly the sum of the success and failed
counters at the time of the call, and under any interleaving of
`update_success`/`update_failed` calls its value is monotonically
non-decreasing over the life of the tracker. -/
theorem C7_current_eq_sum_and_monotone (p : DownloadProgress) (ops : List ProgressOp) :
    (apply_ops p ops).get_current =
      (apply_ops p ops).success + (apply_ops p ops).failed ∧
    p.get_current ≤ (apply_ops p ops).get_current := by
  constructor
  · rfl
  · induction ops generalizing p with
    | nil => exact Nat.le_refl _
    | cons op rest ih =>
      have h1 : p.get_current ≤ (apply_op p op).get_current := by
        cases op <;>
          simp [apply_op, DownloadProgress.update_success,
            DownloadProgress.update_failed, DownloadProgress.get_current]
      exact Nat.le_trans h1 (ih (apply_op p op))

/-- Claim C9: `Download::new` ignores its argument; the stored
`version_manifest_url` is always the fixed Mojang manifest URL, so the
`get_version_manifest` command always fetches the same endpoint. -/
theorem C9_new_ignores_argument : ∀ (s t : String),
    (Download.new s).version_manifest_url =
      "https://piston-meta.mojang.com/mc/game/version_manifest.json" ∧
    (Download.new s).version_manifest_url = (Download.new t).version_manifest_url := by
  intro s t
  exact ⟨rfl, rfl⟩

/-- Claim C10: asset task preparation is total on indexes whose objects all
carry hashes of at least two (ASCII) characters, but an object carrying a
hash shorter than two characters makes the unguarded slice of the first two
bytes abort the whole preparation (an out-of-bounds byte slice) instead of
skipping or failing only that task. -/
theorem C10_hash_slice_total_and_short_hash_aborts :
    (∀ (objects : List AssetObject),
      (∀ o ∈ objects, ∀ h, o.hash = some h →
        2 ≤ h.length ∧ ∀ c ∈ h.data, c.toNat < 128) →
      (prepare_asset_download_tasks objects).isSome = true) ∧
    prepare_asset_download_tasks [{ hash := some "a" }] = none := by
  constructor
  · intro objects hall
    induction objects with
    | nil => simp [prepare_asset_download_tasks]
    | cons obj rest ih =>
      have hrest := ih (fun o ho h hh => hall o (List.mem_cons_of_mem _ ho) h hh)
      cases hh : obj.hash with
      | none => simpa [prepare_asset_download_tasks, hh] using hrest
      | some h =>
        have hl := (hall obj (List.mem_cons_self _ _) h hh).1
        rw [Option.isSome_iff_exists] at hrest
        obtain ⟨ts, hts⟩ := hrest
        simp [prepare_asset_download_tasks, hh, if_pos hl, hts]
  · decide

theorem C10_hash_slice_total_and_short_hash_aborts_witness :
    (prepare_asset_download_tasks [{ hash := some "ab" }]).isSome = true ∧
    prepare_asset_download_tasks [{ hash := some "a" }] = none :=
  ⟨C10_hash_slice_total_and_short_hash_aborts.1 [{ hash := some "ab" }]
    (by
      intro o ho h hh
      simp only [List.mem_singleton] at ho
      subst ho
      simp only at hh
      rw [Option.some.injEq] at hh
      subst hh
      exact ⟨by decide, by decide⟩),
   C10_hash_slice_total_and_short_hash_aborts.2⟩

/-- A library artifact whose every transfer attempt fails: the scenario in
which claim C1 requires the whole invocation to fail. -/
def failing_lib_task : AssetTask :=
  { attempt1 := fun _ => AttemptOutcome.errBeforeCreate,
    attempt2 := fun _ => AttemptOutcome.errBeforeCreate,
    content := [],
    hash := "0000000000000000000000000000000000000000" }

/-- Claim C1 (code behavior at the failing input): a run whose only artifact
is a library whose download fails on every attempt leaves the library phase
reporting one failure, yet `dwl_version_manifest` still returns the parsed
manifest (`Ok`): the library future's failure count is destructured at line
403 and never consulted by the error decision of lines 445-449. -/
theorem C1_library_failure_not_surfaced :
    ((library_phase [failing_lib_task]).1).2 = 1 ∧
    DownloadOptions.dwl_version_manifest
      { client := none, asset_objects := none,
        libraries := [failing_lib_task], client_mappings := none } =
      Except.ok () := by
  exact ⟨by decide, rfl⟩

/-- Claim C2 (counterexample): a call of `download_and_verify_file` whose
every transfer attempt errors after partially writing the file returns an
error while a file still exists at the destination path — the transfer-error
branch of lines 506-510 retries without deleting anything. -/
theorem C2_error_leaves_file_counterexample :
    (download_and_verify_file (fun _ => AttemptOutcome.errMidWrite) [] "x"
      none 3 false).1 = none ∧
    (download_and_verify_file (fun _ => AttemptOutcome.errMidWrite) [] "x"
      none 3 false).2.1 = true := by
  exact ⟨by decide, by decide⟩

/-- Claim C2 (amended): the size-mismatch failure mode deletes the partial
file before each retry and before giving up, and the hash-mismatch failure
mode deletes the file before returning; but a transfer-error attempt does not
delete the partially written file. -/
theorem C2_mismatch_and_hash_failures_delete :
    (∀ (attempt : Nat → AttemptOutcome) (n : Nat) (fs : Bool),
      0 < n → (∀ i, i < n → sizeMismatch (attempt i) = true) →
      download_file_with_retry attempt n fs = (none, false)) ∧
    (∀ (attempt : Nat → AttemptOutcome) (content : List Nat) (eh : String)
      (p : Option DownloadProgress) (n : Nat) (fs : Bool),
      ((download_file_with_retry attempt n fs).1).isSome = true →
      sha1Hex content ≠ eh →
      (download_and_verify_file attempt content eh p n fs).1 = none ∧
      (download_and_verify_file attempt content eh p n fs).2.1 = false) := by
  constructor
  · intro attempt n fs hn hall
    rw [mismatch_run n attempt fs hall, if_neg (Nat.pos_iff_ne_zero.mp hn)]
  · intro attempt content eh p n fs hsome hne
    rcases hr : download_file_with_retry attempt n fs with ⟨o, fsO⟩
    cases o with
    | none => rw [hr] at hsome; simp at hsome
    | some info => simp [download_and_verify_file, hr, hne]

theorem C2_mismatch_and_hash_failures_delete_witness :
    download_file_with_retry (fun _ => AttemptOutcome.ok 5 4) 3 false =
      (none, false) ∧
    ((download_and_verify_file (fun _ => AttemptOutcome.ok 0 0) [] "x" none
      3 false).1 = none ∧
     (download_and_verify_file (fun _ => AttemptOutcome.ok 0 0) [] "x" none
      3 false).2.1 = false) :=
  ⟨C2_mismatch_and_hash_failures_delete.1 (fun _ => AttemptOutcome.ok 5 4) 3
      false (by decide) (fun i _ => rfl),
   C2_mismatch_and_hash_failures_delete.2 (fun _ => AttemptOutcome.ok 0 0) []
      "x" none 3 false (by decide) (by decide)⟩

/-- Claim C3 (counterexample): an expected hash given in uppercase hex whose
lowercase form equals the computed digest is REJECTED, not accepted: the
comparison at line 554 is exact string equality against the lowercase `{:x}`
rendering, not case-insensitive. -/
theorem C3_uppercase_hash_rejected_counterexample :
    String.mk ("DA39A3EE5E6B4B0D3255BFEF95601890AFD80709".data.map Char.toLower) =
      sha1Hex [] ∧
    ((download_file_with_retry (fun _ => AttemptOutcome.ok 0 0) 3 false).1).isSome
      = true ∧
    (download_and_verify_file (fun _ => AttemptOutcome.ok 0 0) []
      "DA39A3EE5E6B4B0D3255BFEF95601890AFD80709" none 3 false).1 = none := by
  exact ⟨by decide, by decide, by decide⟩

/-- Claim C3 (amended): `download_and_verify_file` accepts the file exactly
when the transfer succeeded and the computed lowercase hex SHA-1 digest is
string-equal — case-sensitively — to the declared expected hash. -/
theorem C3_hash_check_exact_equality :
    ∀ (attempt : Nat → AttemptOutcome) (content : List Nat) (eh : String)
      (p : Option DownloadProgress) (n : Nat) (fs : Bool),
      ((download_and_verify_file attempt content eh p n fs).1).isSome = true ↔
      (((download_file_with_retry attempt n fs).1).isSome = true ∧
        sha1Hex content = eh) := by
  intro attempt content eh p n fs
  rcases hr : download_file_with_retry attempt n fs with ⟨o, fsO⟩
  cases o with
  | none => simp [download_and_verify_file, hr]
  | some info =>
    by_cases he : sha1Hex content = eh
    · simp [download_and_verify_file, hr, he]
    · simp [download_and_verify_file, hr, he]

/-- Claim C4 (counterexample): when all transfer attempts are exhausted
without a successful transfer, `download_and_verify_file` returns an error
and NO counter of the given tracker is incremented — the `?` at line 546
propagates the failure past both `update_failed` call sites. -/
theorem C4_exhaustion_no_counter_counterexample :
    (download_and_verify_file (fun _ => AttemptOutcome.errBeforeCreate) [] "x"
      (some (DownloadProgress.new 1)) 3 false).1 = none ∧
    (download_and_verify_file (fun _ => AttemptOutcome.errBeforeCreate) [] "x"
      (some (DownloadProgress.new 1)) 3 false).2.2 =
      some (DownloadProgress.new 1) ∧
    (DownloadProgress.new 1).success = 0 ∧ (DownloadProgress.new 1).failed = 0 := by
  exact ⟨by decide, by decide, by decide, by decide⟩

/-- Claim C4 (amended): given a tracker, `download_and_verify_file`
increments exactly the success counter when it succeeds and exactly the
failed counter when the hash check fails, but increments no counter at all
when the transfer retry budget is exhausted. -/
theorem C4_counter_update_characterization :
    ∀ (attempt : Nat → AttemptOutcome) (content : List Nat) (eh : String)
      (n : Nat) (fs : Bool) (p : DownloadProgress),
      (download_and_verify_file attempt content eh (some p) n fs).2.2 =
        some (match (download_file_with_retry attempt n fs).1 with
              | none => p
              | some _ =>
                if sha1Hex content = eh then p.update_success
                else p.update_failed) := by
  intro attempt content eh n fs p
  rcases hr : download_file_with_retry attempt n fs with ⟨o, fsO⟩
  cases o with
  | none => simp [download_and_verify_file, hr]
  | some info =>
    by_cases he : sha1Hex content = eh
    · simp [download_and_verify_file, hr, he]
    · simp [download_and_verify_file, hr, he]

/-- An asset task whose first pass fails, whose retry-pass transfer succeeds,
and whose on-disk content does not match its declared hash. -/
def bad_hash_task : AssetTask :=
  { attempt1 := fun _ => AttemptOutcome.errBeforeCreate,
    attempt2 := fun _ => AttemptOutcome.ok 0 0,
    content := [],
    hash := "0000000000000000000000000000000000000000" }

/-- Claim C5 (counterexample): the second-chance retry pass counts as
successful an artifact whose content hash does not match the declared hash —
it calls `download_file_with_retry`, not the full verifier, so a retry-pass
success has NOT passed the same verification as a first-pass success. -/
theorem C5_retry_pass_no_hash_check_counterexample :
    sha1Hex bad_hash_task.content ≠ bad_hash_task.hash ∧
    (retry_pass [bad_hash_task] (DownloadProgress.new 1)).success = 1 ∧
    (retry_pass [bad_hash_task] (DownloadProgress.new 1)).failed = 0 := by
  exact ⟨by decide, by decide, by decide⟩

/-- Claim C5 (amended): the retry pass drains only the asset phase's failure
records (the library phase records none) and re-runs only the
size-checked transfer with budget 5, without hash verification: a failure it
counts successful passed the size check of the returning attempt, nothing
more. -/
theorem C5_retry_pass_size_check_only :
    ∀ (t : AssetTask) (p : DownloadProgress) (s d : Nat) (fsOut : Bool),
      download_file_with_retry t.attempt2 5 false = (some (s, d), fsOut) →
      retry_pass [t] p = p.update_success ∧ (s = 0 ∨ d = s) := by
  intro t p s d fsOut h
  constructor
  · simp [retry_pass, h]
  · exact retry_size_sound 5 t.attempt2 false fsOut s d h

theorem C5_retry_pass_size_check_only_witness :
    retry_pass [bad_hash_task] (DownloadProgress.new 1) =
      (DownloadProgress.new 1).update_success ∧ ((0 : Nat) = 0 ∨ (0 : Nat) = 0) :=
  C5_retry_pass_size_check_only bad_hash_task (DownloadProgress.new 1) 0 0 true
    (by decide)
